import Mathlib

/-!
# Verification of the `tracing` field/value capture model and the mock
# conformance collector

Shallow embedding of:
* `tracing-core/src/field.rs` — `Field`, `FieldSet`, `ValueSet` and their
  `contains` / `record` / `is_empty` operations;
* `tracing-mock/src/collector.rs` — the `Running` conformance collector:
  its span table, expectation queue, current-span stack, and the
  `record` / `event` / `record_follows_from` / `new_span` / `enter` / `exit` /
  `clone_span` / `drop_span` callbacks.

Rust `panic!` / failed `assert!` / `unimplemented!` are modelled as the
`Except.error` branch of an explicit `Failure` type carrying the data the
diagnostic message renders.  Locks are elided: the embedding is the
sequential semantics of each callback under its locks (a `try_lock` that
succeeds).  `std::thread::panicking()` is passed in as an explicit
`panicking : Bool` argument where the source consults it.
-/

namespace TracingCore

/-- `callsite::Identifier`: a process-wide comparable identity for one
instrumentation site (pointer identity in the source, modelled as `Nat`). -/
structure Identifier where
  id : Nat
deriving DecidableEq, Repr

/-- `FieldSet`: an ordered immutable sequence of field names bound to one
callsite identifier (`tracing-core/src/field.rs`). -/
structure FieldSet where
  names : List String
  callsite : Identifier
deriving DecidableEq, Repr

/-- `Field`: identity = (callsite identifier, integer index); the index points
into the owning `FieldSet`'s name sequence. -/
structure Field where
  i : Nat
  fields : FieldSet
deriving DecidableEq, Repr

/-- `Field::callsite`. -/
def Field.callsite (f : Field) : Identifier :=
  f.fields.callsite

/-- `FieldSet::len`. -/
def FieldSet.len (s : FieldSet) : Nat :=
  s.names.length

/-- `FieldSet::field`: linear search by name, first match wins. -/
def FieldSet.field (s : FieldSet) (name : String) : Option Field :=
  (s.names.findIdx? (· = name)).map (fun i => { i := i, fields := s })

/-- `FieldSet::contains`, translated from the source:
`field.callsite() == self.callsite() && field.i <= self.len()`. -/
def FieldSet.contains (s : FieldSet) (f : Field) : Bool :=
  decide (f.callsite = s.callsite) && decide (f.i ≤ s.len)

/-- `ValueSet`: an ephemeral pairing of fields to optional borrowed values
(the `dyn Valuable` payload is the type parameter `α`). -/
structure ValueSet (α : Type) where
  values : List (Field × Option α)
  fields : FieldSet

/-- `ValueSet::callsite`. -/
def ValueSet.callsite {α : Type} (vs : ValueSet α) : Identifier :=
  vs.fields.callsite

/-- The `for` loop of `ValueSet::record`: pairs from a foreign callsite are
skipped with `continue`; for a present value, `value.visit(visitor)` is
invoked.  The returned list is the trace of `visit` invocations in order. -/
def recordLoop {α : Type} (cs : Identifier) : List (Field × Option α) → List α
  | [] => []
  | (f, v) :: rest =>
    if f.callsite = cs then
      match v with
      | some value => value :: recordLoop cs rest
      | none => recordLoop cs rest
    else
      recordLoop cs rest

/-- `ValueSet::record`: the sequence of values handed to the visitor. -/
def ValueSet.record {α : Type} (vs : ValueSet α) : List α :=
  recordLoop vs.callsite vs.values

/-- The spec's description of `ValueSet::record`: exactly the pairs that
belong to this set's own callsite and carry a present value are visited,
once each, in declared pair order. -/
def ValueSet.recordSpec {α : Type} (vs : ValueSet α) : List α :=
  (vs.values.filter (fun p => decide (p.1.callsite = vs.callsite) && p.2.isSome)).filterMap
    (fun p => p.2)

/-- `ValueSet::is_empty`, translated from the source:
`values.iter().all(|(key, val)| val.is_none() || key.callsite() != my_callsite)`. -/
def ValueSet.is_empty {α : Type} (vs : ValueSet α) : Bool :=
  vs.values.all (fun p => p.2.isNone || !(decide (p.1.callsite = vs.callsite)))

end TracingCore

namespace TracingMock

/-- `valuable::Value`, the closed type-erased union the mock's `record`
comparison matches on.  Signed integer arms carry `Int`, unsigned carry `Nat`;
the `f32`/`f64` arms carry their raw IEEE-754 bit pattern as `Nat`, and every
comparison on them goes through `f32Eq`/`f64Eq`, which implement IEEE-754
`==` on those bits (NaNs compare unequal to everything, the two signed
zeros compare equal).  The type-erased payloads of
`error`/`listable`/`mappable`/`structable`/`enumerable`/`tuplable` are
dropped: the mock's comparison never inspects them
(every such arm is `unimplemented!()`). -/
inductive MValue where
  | bool (v : Bool)
  | char (v : Char)
  | f32 (bits : Nat)
  | f64 (bits : Nat)
  | i8 (v : Int)
  | i16 (v : Int)
  | i32 (v : Int)
  | i64 (v : Int)
  | i128 (v : Int)
  | isize (v : Int)
  | string (v : String)
  | u8 (v : Nat)
  | u16 (v : Nat)
  | u32 (v : Nat)
  | u64 (v : Nat)
  | u128 (v : Nat)
  | usize (v : Nat)
  | path (v : String)
  | error
  | listable
  | mappable
  | structable
  | enumerable
  | tuplable
  | unit
deriving DecidableEq, Repr

/-- `valuable::NamedValues`: named value pairs in declaration order. -/
abbrev NamedValues := List (String × MValue)

/-- `NamedValues::get_by_name`: first pair with a matching field name. -/
def getByName (nvs : NamedValues) (n : String) : Option MValue :=
  (nvs.find? (fun p => p.1 == n)).map (fun p => p.2)

/-- Modelled from the spec: `MockSpan` lives in `tracing-mock/src/span.rs`,
which is not under `src/`.  Per the spec and its uses in `collector.rs`, a
mock span is an optional expected span name, exposed by `name()`. -/
structure MockSpan where
  name? : Option String
deriving DecidableEq, Repr

/-- Modelled from the spec: the `Parent` expectation lives in the missing
`span.rs`; the spec describes declared parents as explicit name,
explicit-root, or contextual. -/
inductive Parent where
  | explicit (name : String)
  | explicitRoot
  | contextual (name : String)
deriving DecidableEq, Repr

/-- Modelled from the spec: `metadata::Expect` lives in the missing
`metadata.rs`; per the spec, each `Some` constraint (name/target/level) must
match exactly and `None` constraints are wildcards.  Levels are modelled as
numbers. -/
structure ExpectMeta where
  name? : Option String
  target? : Option String
  level? : Option Nat
deriving DecidableEq, Repr

/-- Static metadata of an observed callsite (name, target, level). -/
structure Metadata where
  name : String
  target : String
  level : Nat
deriving DecidableEq, Repr

/-- Modelled from the spec: the check of `metadata::Expect` against observed
metadata (missing `metadata.rs`) — every `Some` constraint must match. -/
def ExpectMeta.check (m : ExpectMeta) (meta : Metadata) : Bool :=
  (match m.name? with | some n => n == meta.name | none => true) &&
  (match m.target? with | some t => t == meta.target | none => true) &&
  (match m.level? with | some l => l == meta.level | none => true)

/-- `MockEvent` (`tracing-mock/src/event.rs`): optional expected fields,
optional expected parent, scope, and metadata constraints. -/
structure MockEvent where
  fields? : Option NamedValues
  parent? : Option Parent
  inSpans : List MockSpan
  metadata : ExpectMeta
deriving DecidableEq, Repr

/-- Modelled from the spec: a `NewSpan` expectation (missing `span.rs`)
carries metadata constraints and an optional declared parent. -/
structure NewSpanExp where
  meta : ExpectMeta
  parent? : Option Parent
deriving DecidableEq, Repr

/-- `Expect` (`tracing-mock/src/collector.rs`): the expectation-queue
variants. -/
inductive Expect where
  | event (e : MockEvent)
  | followsFrom (consequence cause : MockSpan)
  | enter (s : MockSpan)
  | exit (s : MockSpan)
  | cloneSpan (s : MockSpan)
  | dropSpan (s : MockSpan)
  | visit (s : MockSpan) (values : NamedValues)
  | newSpan (e : NewSpanExp)
  | nothing
deriving DecidableEq, Repr

/-- `SpanState` (`collector.rs`): collector-private per-span record. -/
structure SpanState where
  name : String
  refs : Nat
  meta : Metadata
deriving DecidableEq, Repr

/-- The mutable state of the `Running` collector: span table, expectation
queue (front = head), current-span stack (last = top), id counter (starts
at 1), and the collector's diagnostic name. -/
structure MockState where
  spans : List (Nat × SpanState)
  expected : List Expect
  current : List Nat
  ids : Nat
  name : String
deriving DecidableEq, Repr

/-- `HashMap::get` on the span table. -/
def lookupSpan (spans : List (Nat × SpanState)) (id : Nat) : Option SpanState :=
  (spans.find? (fun p => p.1 == id)).map (fun p => p.2)

/-- `HashMap::get_mut` followed by a write: replace the state at `id`. -/
def updateSpan (spans : List (Nat × SpanState)) (id : Nat) (st : SpanState) :
    List (Nat × SpanState) :=
  spans.map (fun p => if p.1 == id then (id, st) else p)

/-- `HashMap::insert` on the span table. -/
def insertSpan (spans : List (Nat × SpanState)) (id : Nat) (st : SpanState) :
    List (Nat × SpanState) :=
  (id, st) :: spans.filter (fun p => p.1 != id)

/-- `str::contains`: `pat` occurs as a contiguous substring of `s`. -/
def strContains (s pat : String) : Bool :=
  decide (pat.data <:+: s.data)

/-- What a callback observed, as rendered by the `Expect::bad` diagnostic. -/
inductive Observed where
  | event (name : String)
  | followsFrom (consequence cause : String)
  | enteredSpan (name : String)
  | exitedSpan (name : String)
deriving DecidableEq, Repr

/-- The panics of `collector.rs`, with the data each diagnostic renders:
`bad` is `Expect::bad` (collector name, expected head, observed callback);
`noSpan` is the `"no span for ID"` panic; `nameMismatch` is a failed
`assert_eq!(name, span.name)`; `optNameMismatch` is the failed optional-name
`assert_eq!` of `clone_span`/`drop_span`; `exitNotCurrent` is `exit`'s failed
LIFO assertion (collector, exited id, exited name, actual top id, actual top
name); `expectedEvent` is `drop_span`'s failed `assert!(is_event)`;
`missingField` is the failed `get_by_name(..).unwrap()`; `valueMismatch` is a
failed per-kind `assert_eq!`; `notImplemented` is `unimplemented!()`;
`checkFailed` stands for a failure inside an `Event`/`NewSpan` expectation
check. -/
inductive Failure where
  | bad (collector : String) (expected : Expect) (observed : Observed)
  | noSpan (collector : String) (id : Nat)
  | nameMismatch (expected actual : String)
  | optNameMismatch (actual expected : Option String)
  | exitNotCurrent (collector : String) (id : Nat) (spanName : String)
      (top : Option Nat) (topName : Option String)
  | expectedEvent (collector : String)
  | missingField (fieldName : String)
  | valueMismatch (observed expected : MValue)
  | notImplemented
  | checkFailed
deriving DecidableEq, Repr

/-- Variant tests used to state "any other queue head". -/
def Expect.isEvent : Expect → Bool
  | .event _ => true
  | _ => false

def Expect.isEnter : Expect → Bool
  | .enter _ => true
  | _ => false

def Expect.isExit : Expect → Bool
  | .exit _ => true
  | _ => false

def Expect.isCloneSpan : Expect → Bool
  | .cloneSpan _ => true
  | _ => false

def Expect.isDropSpan : Expect → Bool
  | .dropSpan _ => true
  | _ => false

def Expect.isFollowsFrom : Expect → Bool
  | .followsFrom _ _ => true
  | _ => false

def Expect.isVisit : Expect → Bool
  | .visit _ _ => true
  | _ => false

def Expect.isNewSpan : Expect → Bool
  | .newSpan _ => true
  | _ => false

/-- An observed `tracing::Event`: metadata, kind flag, fields, optional
explicit parent id. -/
structure EventData where
  meta : Metadata
  isEvent : Bool
  fields : NamedValues
  parent? : Option Nat
deriving DecidableEq, Repr

/-- Modelled from the spec: `Parent::check_parent_name` (missing `span.rs`) —
an explicit or contextual declared parent must match the computed parent
name; explicit-root requires no parent. -/
def Parent.checkParentName (p : Parent) (actual : Option String)
    (explicitParent : Option Nat) : Bool :=
  match p with
  | .explicit n => actual == some n
  | .explicitRoot => explicitParent.isNone && actual.isNone
  | .contextual n => actual == some n

/-- `MockEvent::check` (`tracing-mock/src/event.rs`): metadata constraints,
then `meta.is_event()`, then — if fields were declared — the
`NamedValues_` equality, whose `PartialEq` impl in `valuable.rs` is
`todo!()` and therefore panics whenever it is invoked, then the declared
parent.  The metadata/parent sub-checks come from files missing from `src/`
and are spec-modelled (`ExpectMeta.check`, `Parent.checkParentName`). -/
def MockEvent.check (e : MockEvent) (ev : EventData) (parentName : Option String) :
    Except Failure Unit :=
  if !(e.metadata.check ev.meta) then .error .checkFailed
  else if !ev.isEvent then .error .checkFailed
  else
    match e.fields? with
    | some _ => .error .checkFailed
    | none =>
      match e.parent? with
      | some p =>
        if p.checkParentName parentName ev.parent? then .ok () else .error .checkFailed
      | none => .ok ()

/-- The `get_parent_name` closure of `event`/`new_span`: the explicit parent
id resolved in the span table, or else the top of the current stack. -/
def spanParentName (s : MockState) (parent? : Option Nat) : Option String :=
  (((parent?.bind (lookupSpan s.spans))).orElse
      (fun _ => s.current.getLast?.bind (lookupSpan s.spans))).map (fun sp => sp.name)

/-- Modelled from the spec: `NewSpan::check` (missing `span.rs`) — every
`Some` metadata constraint must match exactly, `None` constraints are
wildcards, and a declared parent is compared against the computed parent
name. -/
def NewSpanExp.check (e : NewSpanExp) (attrs : Metadata) (parent? : Option Nat)
    (parentName : Option String) : Bool :=
  e.meta.check attrs &&
    (match e.parent? with
     | none => true
     | some p => p.checkParentName parentName parent?)

/-- `span::Attributes`: observed metadata plus the declared parent id. -/
structure Attributes where
  meta : Metadata
  parent? : Option Nat
deriving DecidableEq, Repr

/-- A binary32 bit pattern denotes a NaN: exponent field (8 bits) all ones
and mantissa field (23 bits) nonzero. -/
def f32IsNan (bits : Nat) : Bool :=
  (bits / 2 ^ 23) % 2 ^ 8 == 255 && bits % 2 ^ 23 != 0

/-- A binary64 bit pattern denotes a NaN: exponent field (11 bits) all ones
and mantissa field (52 bits) nonzero. -/
def f64IsNan (bits : Nat) : Bool :=
  (bits / 2 ^ 52) % 2 ^ 11 == 2047 && bits % 2 ^ 52 != 0

/-- IEEE-754 `==` on raw binary32 bit patterns, the comparison Rust's
`f32::eq` performs: false whenever either operand is a NaN (even at the
identical bit pattern), true for the two signed zeros (`0x00000000` and
`0x80000000`, whose 31 low bits are zero), and bit-pattern equality
otherwise, every other value having a unique pattern. -/
def f32Eq (a b : Nat) : Bool :=
  if f32IsNan a || f32IsNan b then false
  else if a % 2 ^ 31 == 0 && b % 2 ^ 31 == 0 then true
  else a == b

/-- IEEE-754 `==` on raw binary64 bit patterns (Rust's `f64::eq`): false on
any NaN, true for the two signed zeros (63 low bits zero), bit-pattern
equality otherwise. -/
def f64Eq (a b : Nat) : Bool :=
  if f64IsNan a || f64IsNan b then false
  else if a % 2 ^ 63 == 0 && b % 2 ^ 63 == 0 then true
  else a == b

/-- The value equality the source's per-kind `assert_eq!` arms decide:
payload equality for the bool/char/integer/string kinds, IEEE-754 `==`
(`f32Eq`/`f64Eq`) for the float kinds, trivially true for `Unit`, and false
across kinds.  This is the success condition of the supported arms of the
`record` comparison, stated independently of it. -/
def MValue.eqv : MValue → MValue → Bool
  | .bool a, .bool b => a == b
  | .char a, .char b => a == b
  | .f32 a, .f32 b => f32Eq a b
  | .f64 a, .f64 b => f64Eq a b
  | .i8 a, .i8 b => a == b
  | .i16 a, .i16 b => a == b
  | .i32 a, .i32 b => a == b
  | .i64 a, .i64 b => a == b
  | .i128 a, .i128 b => a == b
  | .isize a, .isize b => a == b
  | .string a, .string b => a == b
  | .u8 a, .u8 b => a == b
  | .u16 a, .u16 b => a == b
  | .u32 a, .u32 b => a == b
  | .u64 a, .u64 b => a == b
  | .u128 a, .u128 b => a == b
  | .usize a, .usize b => a == b
  | .unit, .unit => true
  | _, _ => false

namespace Running

/-- One arm of the `match (value, expected_value)` in `Running::record`:
same primitive kind compares by `assert_eq!` — which on the `f32`/`f64`
arms is IEEE-754 `==` (`f32Eq`/`f64Eq` on the carried bit patterns), so a
NaN fails the assertion even against its own bit pattern while the two
signed zeros pass; the
error/listable/mappable/structable/enumerable/tuplable arms and every
cross-kind pair are `unimplemented!()`; `(Unit, Unit)` passes. -/
def compareValues (observed expected : MValue) : Except Failure Unit :=
  match observed, expected with
  | .bool v, .bool e =>
    if v = e then .ok () else .error (.valueMismatch (.bool v) (.bool e))
  | .char v, .char e =>
    if v = e then .ok () else .error (.valueMismatch (.char v) (.char e))
  | .f32 v, .f32 e =>
    if f32Eq v e then .ok () else .error (.valueMismatch (.f32 v) (.f32 e))
  | .f64 v, .f64 e =>
    if f64Eq v e then .ok () else .error (.valueMismatch (.f64 v) (.f64 e))
  | .i8 v, .i8 e =>
    if v = e then .ok () else .error (.valueMismatch (.i8 v) (.i8 e))
  | .i16 v, .i16 e =>
    if v = e then .ok () else .error (.valueMismatch (.i16 v) (.i16 e))
  | .i32 v, .i32 e =>
    if v = e then .ok () else .error (.valueMismatch (.i32 v) (.i32 e))
  | .i64 v, .i64 e =>
    if v = e then .ok () else .error (.valueMismatch (.i64 v) (.i64 e))
  | .i128 v, .i128 e =>
    if v = e then .ok () else .error (.valueMismatch (.i128 v) (.i128 e))
  | .isize v, .isize e =>
    if v = e then .ok () else .error (.valueMismatch (.isize v) (.isize e))
  | .string v, .string e =>
    if v = e then .ok () else .error (.valueMismatch (.string v) (.string e))
  | .u8 v, .u8 e =>
    if v = e then .ok () else .error (.valueMismatch (.u8 v) (.u8 e))
  | .u16 v, .u16 e =>
    if v = e then .ok () else .error (.valueMismatch (.u16 v) (.u16 e))
  | .u32 v, .u32 e =>
    if v = e then .ok () else .error (.valueMismatch (.u32 v) (.u32 e))
  | .u64 v, .u64 e =>
    if v = e then .ok () else .error (.valueMismatch (.u64 v) (.u64 e))
  | .u128 v, .u128 e =>
    if v = e then .ok () else .error (.valueMismatch (.u128 v) (.u128 e))
  | .usize v, .usize e =>
    if v = e then .ok () else .error (.valueMismatch (.usize v) (.usize e))
  | .error, .error => .error .notImplemented
  | .listable, .listable => .error .notImplemented
  | .mappable, .mappable => .error .notImplemented
  | .structable, .structable => .error .notImplemented
  | .enumerable, .enumerable => .error .notImplemented
  | .tuplable, .tuplable => .error .notImplemented
  | .unit, .unit => .ok ()
  | _, _ => .error .notImplemented

/-- The `for (expected_field, expected_value)` loop of `Running::record`:
each expected field is looked up by name in the observed values
(`get_by_name(..).unwrap()`) and compared by kind. -/
def checkFields (exp : List (String × MValue)) (obs : NamedValues) :
    Except Failure Unit :=
  match exp with
  | [] => .ok ()
  | (n, e) :: rest =>
    match getByName obs n with
    | none => .error (.missingField n)
    | some v =>
      match compareValues v e with
      | .ok _ => checkFields rest obs
      | .error f => .error f

/-- `Running::record`: unknown id panics; a `Visit` queue head is popped and
checked (expected span name if declared, then every expected field); any
other head, or an empty queue, leaves the queue untouched. -/
def record (s : MockState) (id : Nat) (values : NamedValues) :
    Except Failure MockState :=
  match lookupSpan s.spans id with
  | none => .error (.noSpan s.name id)
  | some sp =>
    match s.expected with
    | .visit expectedSpan expectedValues :: rest =>
      let nameOk : Except Failure Unit :=
        match expectedSpan.name? with
        | some n => if n = sp.name then .ok () else .error (.nameMismatch n sp.name)
        | none => .ok ()
      match nameOk with
      | .error f => .error f
      | .ok _ =>
        match checkFields expectedValues values with
        | .ok _ => .ok { s with expected := rest }
        | .error f => .error f
    | _ => .ok s

/-- `Running::event`: pops the queue head; an empty queue accepts silently,
an `Event` head delegates to `MockEvent::check`, any other head is
`Expect::bad`. -/
def event (s : MockState) (ev : EventData) : Except Failure MockState :=
  match s.expected with
  | [] => .ok s
  | .event expected :: rest =>
    match expected.check ev (spanParentName s ev.parent?) with
    | .ok _ => .ok { s with expected := rest }
    | .error f => .error f
  | ex :: _ => .error (.bad s.name ex (.event ev.meta.name))

/-- `Running::record_follows_from`: if either id is unresolvable the edge is
silently ignored; otherwise the queue head is popped — empty accepts,
`FollowsFrom` checks the two declared names, anything else is `Expect::bad`. -/
def record_follows_from (s : MockState) (consequenceId causeId : Nat) :
    Except Failure MockState :=
  match lookupSpan s.spans consequenceId with
  | none => .ok s
  | some consequenceSpan =>
    match lookupSpan s.spans causeId with
    | none => .ok s
    | some causeSpan =>
      match s.expected with
      | [] => .ok s
      | .followsFrom expectedConsequence expectedCause :: rest =>
        let consequenceOk : Except Failure Unit :=
          match expectedConsequence.name? with
          | some n =>
            if n = consequenceSpan.name then .ok ()
            else .error (.nameMismatch n consequenceSpan.name)
          | none => .ok ()
        match consequenceOk with
        | .error f => .error f
        | .ok _ =>
          match expectedCause.name? with
          | some n =>
            if n = causeSpan.name then .ok { s with expected := rest }
            else .error (.nameMismatch n causeSpan.name)
          | none => .ok { s with expected := rest }
      | ex :: _ =>
        .error (.bad s.name ex (.followsFrom consequenceSpan.name causeSpan.name))

/-- `Running::new_span`: the id counter is fetched and incremented first
(`fetch_add`); a `NewSpan` queue head is popped and checked; then the span
state is inserted with refcount 1 and the fresh id is returned. -/
def new_span (s : MockState) (attrs : Attributes) :
    Except Failure (MockState × Nat) :=
  let id := s.ids
  let s1 : MockState := { s with ids := s.ids + 1 }
  let afterCheck : Except Failure MockState :=
    match s1.expected with
    | .newSpan expected :: rest =>
      if expected.check attrs.meta attrs.parent? (spanParentName s1 attrs.parent?) then
        .ok { s1 with expected := rest }
      else .error .checkFailed
    | _ => .ok s1
  match afterCheck with
  | .error f => .error f
  | .ok s2 =>
    .ok ({ s2 with spans := insertSpan s2.spans id ⟨attrs.meta.name, 1, attrs.meta⟩ }, id)

/-- `Running::enter`: if the id resolves, the queue head is popped — empty
accepts, `Enter` checks the declared name, anything else is `Expect::bad`;
an unresolvable id skips the check entirely.  In every non-panicking path
the id is then pushed onto the current stack. -/
def enter (s : MockState) (id : Nat) : Except Failure MockState :=
  let checked : Except Failure MockState :=
    match lookupSpan s.spans id with
    | none => .ok s
    | some sp =>
      match s.expected with
      | [] => .ok s
      | .enter expectedSpan :: rest =>
        match expectedSpan.name? with
        | some n =>
          if n = sp.name then .ok { s with expected := rest }
          else .error (.nameMismatch n sp.name)
        | none => .ok { s with expected := rest }
      | ex :: _ => .error (.bad s.name ex (.enteredSpan sp.name))
  match checked with
  | .error f => .error f
  | .ok s1 => .ok { s1 with current := s1.current ++ [id] }

/-- `Running::exit`: short-circuits while panicking; an unknown id panics;
the queue head is popped — empty accepts (the stack is left untouched), an
`Exit` head checks the declared name, pops the current stack, and asserts
the popped id equals the exited id, anything else is `Expect::bad`. -/
def exit (s : MockState) (panicking : Bool) (id : Nat) :
    Except Failure MockState :=
  if panicking then .ok s
  else
    match lookupSpan s.spans id with
    | none => .error (.noSpan s.name id)
    | some sp =>
      match s.expected with
      | [] => .ok s
      | .exit expectedSpan :: rest =>
        let nameOk : Except Failure Unit :=
          match expectedSpan.name? with
          | some n => if n = sp.name then .ok () else .error (.nameMismatch n sp.name)
          | none => .ok ()
        match nameOk with
        | .error f => .error f
        | .ok _ =>
          let curr := s.current.getLast?
          if curr = some id then
            .ok { s with expected := rest, current := s.current.dropLast }
          else
            .error (.exitNotCurrent s.name id sp.name curr
              ((curr.bind (lookupSpan s.spans)).map (fun t => t.name)))
      | ex :: _ => .error (.bad s.name ex (.exitedSpan sp.name))

/-- `Running::clone_span`: if the id resolves its refcount is incremented; a
`CloneSpan` queue head asserts the optional cloned name equals the declared
optional name and is popped; any other head is left in place.  The same id
is always returned. -/
def clone_span (s : MockState) (id : Nat) : Except Failure (MockState × Nat) :=
  let found := lookupSpan s.spans id
  let name? : Option String := found.map (fun sp => sp.name)
  let spans' :=
    match found with
    | some sp => updateSpan s.spans id { sp with refs := sp.refs + 1 }
    | none => s.spans
  let s1 : MockState := { s with spans := spans' }
  match s1.expected with
  | .cloneSpan expectedSpan :: rest =>
    if name? = expectedSpan.name? then .ok ({ s1 with expected := rest }, id)
    else .error (.optNameMismatch name? expectedSpan.name?)
  | _ => .ok (s1, id)

/-- `Running::drop_span`: if the id resolves its refcount is decremented and
`is_event` records whether the span's name contains the substring `"event"`;
a `DropSpan` queue head asserts the optional dropped name equals the declared
optional name (skipped while panicking) and is popped; an `Event` queue head
asserts `is_event` (skipped while panicking) and is popped; any other head is
left in place. -/
def drop_span (s : MockState) (panicking : Bool) (id : Nat) :
    Except Failure MockState :=
  let found := lookupSpan s.spans id
  let name? : Option String := found.map (fun sp => sp.name)
  let is_event : Bool :=
    match found with
    | some sp => strContains sp.name "event"
    | none => false
  let spans' :=
    match found with
    | some sp => updateSpan s.spans id { sp with refs := sp.refs - 1 }
    | none => s.spans
  let s1 : MockState := { s with spans := spans' }
  match s1.expected with
  | .dropSpan expectedSpan :: rest =>
    if panicking then .ok { s1 with expected := rest }
    else if name? = expectedSpan.name? then .ok { s1 with expected := rest }
    else .error (.optNameMismatch name? expectedSpan.name?)
  | .event _ :: rest =>
    if panicking then .ok { s1 with expected := rest }
    else if is_event then .ok { s1 with expected := rest }
    else .error (.expectedEvent s1.name)
  | _ => .ok s1

end Running

/-- `MockCollector::run_with_handle`: the initial `Running` state — empty
span table, the declared expectations, empty current stack, id counter 1. -/
def run_with_handle (expected : List Expect) (name : String) : MockState :=
  { spans := [], expected := expected, current := [], ids := 1, name := name }

/-- The value kinds for which the comparison of `Running::record` has a
typed `assert_eq!` arm (or the trivial `Unit` arm).  The remaining kinds —
`Path` and the type-erased `Error`/`Listable`/`Mappable`/`Structable`/
`Enumerable`/`Tuplable` — only reach `unimplemented!()` arms. -/
def supportedPrim : MValue → Bool
  | .path _ => false
  | .error => false
  | .listable => false
  | .mappable => false
  | .structable => false
  | .enumerable => false
  | .tuplable => false
  | _ => true

/-- The kind tag of a value: two values are of the same kind iff their tags
agree. -/
def MValue.kind : MValue → Nat
  | .bool _ => 0
  | .char _ => 1
  | .f32 _ => 2
  | .f64 _ => 3
  | .i8 _ => 4
  | .i16 _ => 5
  | .i32 _ => 6
  | .i64 _ => 7
  | .i128 _ => 8
  | .isize _ => 9
  | .string _ => 10
  | .u8 _ => 11
  | .u16 _ => 12
  | .u32 _ => 13
  | .u64 _ => 14
  | .u128 _ => 15
  | .usize _ => 16
  | .path _ => 17
  | .error => 18
  | .listable => 19
  | .mappable => 20
  | .structable => 21
  | .enumerable => 22
  | .tuplable => 23
  | .unit => 24

/-- The counter invariant of a `Running` state: the id counter started at 1
and every id in the span table was minted by a previous `fetch_add`, so all
table keys are below the counter. -/
def counterInv (s : MockState) : Prop :=
  1 ≤ s.ids ∧ ∀ p ∈ s.spans, p.1 < s.ids

end TracingMock

namespace TracingCore

theorem recordLoop_eq_filter {α : Type} (cs : Identifier) (l : List (Field × Option α)) :
    recordLoop cs l
      = (l.filter (fun p => decide (p.1.callsite = cs) && p.2.isSome)).filterMap
          (fun p => p.2) := by
  induction l with
  | nil => rfl
  | cons p rest ih =>
    obtain ⟨f, v⟩ := p
    by_cases hcs : f.callsite = cs
    · cases v with
      | some a => simp [recordLoop, hcs, List.filter_cons, ih]
      | none => simp [recordLoop, hcs, List.filter_cons, ih]
    · simp [recordLoop, hcs, List.filter_cons, ih]

theorem recordLoop_foreign_filtered {α : Type} (cs : Identifier) (l : List (Field × Option α)) :
    recordLoop cs l = recordLoop cs (l.filter (fun p => decide (p.1.callsite = cs))) := by
  induction l with
  | nil => rfl
  | cons p rest ih =>
    obtain ⟨f, v⟩ := p
    by_cases hcs : f.callsite = cs
    · cases v with
      | some a => simp [recordLoop, hcs, List.filter_cons, ih]
      | none => simp [recordLoop, hcs, List.filter_cons, ih]
    · simp [recordLoop, hcs, List.filter_cons, ih]

/-- Claim C6, counterexample: `FieldSet::contains` accepts a field whose
index is one past the end of the name sequence (`field.i <= self.len()` in
the source), so "the index is in range (a valid position within the name
sequence)" is not what the code checks: for the one-name set, the field with
index 1 and the same callsite is reported contained although position 1 does
not exist. -/
theorem C6_counterexample :
    FieldSet.contains ⟨["foo"], ⟨0⟩⟩ ⟨1, ⟨["foo"], ⟨0⟩⟩⟩ = true ∧
    (["foo"] : List String)[1]? = none := by
  constructor
  · rfl
  · rfl

/-- Claim C6, amended: `FieldSet::contains` returns true exactly when the
field's callsite equals the set's callsite and the field's index is at most
the set's length (so the index one past the end is also accepted); a field
with a foreign callsite is always rejected, whatever its name. -/
theorem C6_contains_characterization (S : FieldSet) (f : Field) :
    (S.contains f = true ↔ f.callsite = S.callsite ∧ f.i ≤ S.len) ∧
    (f.callsite ≠ S.callsite → S.contains f = false) := by
  constructor
  · simp [FieldSet.contains]
  · intro h
    simp [FieldSet.contains, h]

/-- Witness for C6: a field of a foreign callsite sharing the name sequence
is rejected. -/
theorem C6_contains_characterization_witness :
    FieldSet.contains ⟨["foo"], ⟨0⟩⟩ ⟨0, ⟨["foo"], ⟨1⟩⟩⟩ = false :=
  (C6_contains_characterization ⟨["foo"], ⟨0⟩⟩ ⟨0, ⟨["foo"], ⟨1⟩⟩⟩).2 (by decide)

/-- Claim C7: `ValueSet::record` visits exactly the pairs that belong to the
set's own callsite and carry a present value, once per such pair, in
declared pair order (the trace equals the in-order extraction of those
pairs); pairs keyed by a foreign callsite are never visited (dropping them
leaves the trace unchanged). -/
theorem C7_record_visits_own_present_pairs_in_order {α : Type} (vs : ValueSet α) :
    vs.record = vs.recordSpec ∧
    vs.record =
      ValueSet.record
        ⟨vs.values.filter (fun p => decide (p.1.callsite = vs.callsite)), vs.fields⟩ := by
  refine ⟨recordLoop_eq_filter _ _, ?_⟩
  simpa [ValueSet.record, ValueSet.callsite] using
    recordLoop_foreign_filtered vs.callsite vs.values

/-- Claim C8: `ValueSet::is_empty` is true iff every paired value is absent
or keyed by a field of a foreign callsite; in particular the zero-pair set
and any all-absent set are empty. -/
theorem C8_is_empty_iff_all_absent_or_foreign {α : Type} (vs : ValueSet α) :
    (vs.is_empty = true ↔ ∀ p ∈ vs.values, p.2 = none ∨ p.1.callsite ≠ vs.callsite) ∧
    (vs.values = [] → vs.is_empty = true) ∧
    ((∀ p ∈ vs.values, p.2 = none) → vs.is_empty = true) := by
  have hiff : vs.is_empty = true ↔
      ∀ p ∈ vs.values, p.2 = none ∨ p.1.callsite ≠ vs.callsite := by
    simp only [ValueSet.is_empty, List.all_eq_true, Bool.or_eq_true, Bool.not_eq_true',
      decide_eq_false_iff_not, Option.isNone_iff_eq_none]
  refine ⟨hiff, ?_, ?_⟩
  · intro h
    rw [hiff, h]
    intro p hp
    cases hp
  · intro h
    rw [hiff]
    intro p hp
    exact Or.inl (h p hp)

/-- Witness for C8: the zero-pair `ValueSet` and an all-absent `ValueSet`
both report `is_empty`. -/
theorem C8_is_empty_witness :
    ValueSet.is_empty (⟨[], ⟨["foo"], ⟨0⟩⟩⟩ : ValueSet Nat) = true ∧
    ValueSet.is_empty
      (⟨[(⟨0, ⟨["foo"], ⟨0⟩⟩⟩, (none : Option Nat))], ⟨["foo"], ⟨0⟩⟩⟩ : ValueSet Nat) = true := by
  constructor
  · exact (C8_is_empty_iff_all_absent_or_foreign _).2.1 rfl
  · exact (C8_is_empty_iff_all_absent_or_foreign
      (⟨[(⟨0, ⟨["foo"], ⟨0⟩⟩⟩, (none : Option Nat))], ⟨["foo"], ⟨0⟩⟩⟩ : ValueSet Nat)).2.2
      (by decide)

end TracingCore

namespace TracingMock

theorem lookupSpan_insert (spans : List (Nat × SpanState)) (id : Nat) (st : SpanState) :
    lookupSpan (insertSpan spans id st) id = some st := by
  simp [lookupSpan, insertSpan, List.find?_cons_of_pos]

theorem lookupSpan_update_self (spans : List (Nat × SpanState)) (id : Nat) (st sp : SpanState)
    (h : lookupSpan spans id = some sp) :
    lookupSpan (updateSpan spans id st) id = some st := by
  induction spans with
  | nil => simp [lookupSpan] at h
  | cons p rest ih =>
    rcases p with ⟨k, v⟩
    by_cases hk : k = id
    · subst hk
      simp [lookupSpan, updateSpan, List.find?_cons_of_pos]
    · have hbeq : ((k : Nat) == id) = false := by
        simpa using hk
      have h' : lookupSpan rest id = some sp := by
        simpa [lookupSpan, List.find?_cons_of_neg, hbeq] using h
      have hstep : updateSpan ((k, v) :: rest) id st = (k, v) :: updateSpan rest id st := by
        simp [updateSpan, hk]
      rw [hstep]
      have hskip : lookupSpan ((k, v) :: updateSpan rest id st) id
          = lookupSpan (updateSpan rest id st) id := by
        unfold lookupSpan
        rw [List.find?_cons_of_neg _ (by simp [hk])]
      rw [hskip]
      exact ih h'

theorem lookupSpan_eq_none_of_lt (spans : List (Nat × SpanState)) (n : Nat)
    (h : ∀ p ∈ spans, p.1 < n) : lookupSpan spans n = none := by
  simp only [lookupSpan, Option.map_eq_none', List.find?_eq_none]
  intro p hp
  have hlt := h p hp
  simp [Nat.ne_of_lt hlt]

/-- In every successful `clone_span` on a resolvable id, the same id is
returned and the span's refcount has been incremented by one. -/
theorem clone_span_refs_incremented (t t' : MockState) (j r : Nat) (sp : SpanState)
    (hj : lookupSpan t.spans j = some sp) (h : Running.clone_span t j = .ok (t', r)) :
    r = j ∧ lookupSpan t'.spans j = some { sp with refs := sp.refs + 1 } := by
  rcases hexp : t.expected with _ | ⟨ex, rest⟩
  · simp only [Running.clone_span, hj, hexp] at h
    rw [Except.ok.injEq, Prod.mk.injEq] at h
    obtain ⟨h1, h2⟩ := h
    subst h1
    subst h2
    exact ⟨rfl, lookupSpan_update_self _ _ _ _ hj⟩
  · cases ex <;> simp only [Running.clone_span, hj, hexp] at h
    case cloneSpan e =>
      split at h
      · rw [Except.ok.injEq, Prod.mk.injEq] at h
        obtain ⟨h1, h2⟩ := h
        subst h1
        subst h2
        exact ⟨rfl, lookupSpan_update_self _ _ _ _ hj⟩
      · exact Except.noConfusion h
    all_goals
      rw [Except.ok.injEq, Prod.mk.injEq] at h
      obtain ⟨h1, h2⟩ := h
      subst h1
      subst h2
      exact ⟨rfl, lookupSpan_update_self _ _ _ _ hj⟩

/-- In every successful non-panicking `drop_span` on a resolvable id, the
span's refcount has been decremented by one. -/
theorem drop_span_refs_decremented (t t' : MockState) (j : Nat) (sp : SpanState)
    (hj : lookupSpan t.spans j = some sp)
    (h : Running.drop_span t false j = .ok t') :
    lookupSpan t'.spans j = some { sp with refs := sp.refs - 1 } := by
  rcases hexp : t.expected with _ | ⟨ex, rest⟩
  · simp only [Running.drop_span, hj, hexp] at h
    rw [Except.ok.injEq] at h
    subst h
    exact lookupSpan_update_self _ _ _ _ hj
  · cases ex <;>
      simp only [Running.drop_span, hj, hexp, Bool.false_eq_true, if_false] at h
    case dropSpan e =>
      split at h
      · rw [Except.ok.injEq] at h
        subst h
        exact lookupSpan_update_self _ _ _ _ hj
      · exact Except.noConfusion h
    case event e =>
      split at h
      · rw [Except.ok.injEq] at h
        subst h
        exact lookupSpan_update_self _ _ _ _ hj
      · exact Except.noConfusion h
    all_goals
      rw [Except.ok.injEq] at h
      subst h
      exact lookupSpan_update_self _ _ _ _ hj

/-- Shape of every successful `new_span`: the returned id is the old counter
value, the counter is bumped, and the span state was inserted under the
returned id with reference count 1. -/
theorem new_span_ok_shape (s : MockState) (attrs : Attributes) (s' : MockState) (id : Nat)
    (h : Running.new_span s attrs = .ok (s', id)) :
    id = s.ids ∧ s'.ids = s.ids + 1 ∧
    s'.spans = insertSpan s.spans s.ids ⟨attrs.meta.name, 1, attrs.meta⟩ := by
  rcases hexp : s.expected with _ | ⟨ex, rest⟩
  · simp only [Running.new_span, hexp] at h
    rw [Except.ok.injEq, Prod.mk.injEq] at h
    obtain ⟨h1, h2⟩ := h
    refine ⟨h2.symm, ?_, ?_⟩ <;> rw [← h1]
  · cases ex <;> simp only [Running.new_span, hexp] at h
    case newSpan e =>
      split at h
      · exact Except.noConfusion h
      · rename_i s2 heq
        split at heq
        · rw [Except.ok.injEq] at heq
          subst heq
          rw [Except.ok.injEq, Prod.mk.injEq] at h
          obtain ⟨h1, h2⟩ := h
          refine ⟨h2.symm, ?_, ?_⟩ <;> rw [← h1]
        · exact Except.noConfusion heq
    all_goals
      rw [Except.ok.injEq, Prod.mk.injEq] at h
      obtain ⟨h1, h2⟩ := h
      refine ⟨h2.symm, ?_, ?_⟩ <;> rw [← h1]

/-- Claim C4: `new_span` returns the current value of the monotonically
increasing counter (so, under the counter invariant established by the
initial state, a nonzero id never handed out before), records the span with
reference count 1, and bumps the counter, preserving the invariant;
`clone_span` on a resolvable id increments that id's reference count and
returns the identical id; `drop_span` on a resolvable id with positive
reference count decrements it by one. -/
theorem C4_fresh_ids_and_refcounts (s : MockState) (attrs : Attributes)
    (s' : MockState) (id : Nat) (hinv : counterInv s)
    (h : Running.new_span s attrs = .ok (s', id)) :
    id = s.ids ∧ id ≠ 0 ∧ lookupSpan s.spans id = none ∧
    lookupSpan s'.spans id = some ⟨attrs.meta.name, 1, attrs.meta⟩ ∧
    s'.ids = s.ids + 1 ∧ counterInv s' ∧
    (∀ (t t' : MockState) (j r : Nat) (sp : SpanState),
      lookupSpan t.spans j = some sp → Running.clone_span t j = .ok (t', r) →
        r = j ∧ lookupSpan t'.spans j = some { sp with refs := sp.refs + 1 }) ∧
    (∀ (t t' : MockState) (j : Nat) (sp : SpanState),
      lookupSpan t.spans j = some sp → 1 ≤ sp.refs →
        Running.drop_span t false j = .ok t' →
        lookupSpan t'.spans j = some { sp with refs := sp.refs - 1 }) := by
  obtain ⟨hpos, hlt⟩ := hinv
  have hfresh : lookupSpan s.spans s.ids = none := lookupSpan_eq_none_of_lt _ _ hlt
  obtain ⟨hidv, hids, hspans⟩ := new_span_ok_shape s attrs s' id h
  subst hidv
  refine ⟨rfl, by omega, hfresh, ?_, hids, ⟨by omega, ?_⟩, ?_, ?_⟩
  · rw [hspans]
    exact lookupSpan_insert _ _ _
  · intro p hp
    rw [hspans] at hp
    rw [hids]
    rcases List.mem_cons.mp hp with hp | hp
    · subst hp
      exact Nat.lt_succ_self _
    · have := hlt p (List.mem_filter.mp hp).1
      omega
  · intro t t' j r sp hj hc
    exact clone_span_refs_incremented t t' j r sp hj hc
  · intro t t' j sp hj _ hd
    exact drop_span_refs_decremented t t' j sp hj hd

/-- Witness for C4: from the initial state, `new_span` mints id 1 (nonzero,
absent from the empty table) and records the span with refcount 1. -/
theorem C4_fresh_ids_and_refcounts_witness :
    (1 : Nat) ≠ 0 ∧
    lookupSpan (run_with_handle [] "mock").spans 1 = none ∧
    lookupSpan [(1, ⟨"foo", 1, ⟨"foo", "t", 3⟩⟩)] 1 = some ⟨"foo", 1, ⟨"foo", "t", 3⟩⟩ := by
  have h := C4_fresh_ids_and_refcounts (run_with_handle [] "mock") ⟨⟨"foo", "t", 3⟩, none⟩
    { spans := [(1, ⟨"foo", 1, ⟨"foo", "t", 3⟩⟩)], expected := [], current := [], ids := 2,
      name := "mock" } 1
    ⟨Nat.le_refl 1, fun p hp => absurd hp (List.not_mem_nil p)⟩ rfl
  exact ⟨h.2.1, h.2.2.1, h.2.2.2.1⟩

/-- Claim C5, counterexample: with the `Nothing` sentinel at the head of the
expectation queue, `new_span` does not fail — contradicting "once the queue
head is the Nothing sentinel, any further callback (new_span, ...) is a
failure": it mints the span and leaves `Nothing` in place. -/
theorem C5_counterexample :
    Running.new_span (run_with_handle [.nothing] "mock") ⟨⟨"foo", "t", 3⟩, none⟩ =
      .ok ({ spans := [(1, ⟨"foo", 1, ⟨"foo", "t", 3⟩⟩)], expected := [.nothing],
             current := [], ids := 2, name := "mock" }, 1) := rfl

/-- Claim C5, amended: with an empty expectation queue every callback (on
resolvable span ids, outside a panic) is silently accepted; with the
`Nothing` sentinel at the queue head, `event`, `enter`, `exit` and
`record_follows_from` fail with the "expected nothing else to happen"
diagnostic, while `record`, `new_span`, `clone_span` and `drop_span` are
accepted without consuming the sentinel. -/
theorem C5_empty_queue_and_nothing_sentinel (s : MockState) (id kid : Nat)
    (sp ksp : SpanState) (values : NamedValues) (attrs : Attributes) (ev : EventData)
    (hid : lookupSpan s.spans id = some sp) (hkid : lookupSpan s.spans kid = some ksp) :
    (s.expected = [] →
      Running.event s ev = .ok s ∧
      Running.record s id values = .ok s ∧
      Running.enter s id = .ok { s with current := s.current ++ [id] } ∧
      Running.exit s false id = .ok s ∧
      Running.record_follows_from s id kid = .ok s ∧
      Running.new_span s attrs =
        .ok ({ s with
               ids := s.ids + 1,
               spans := insertSpan s.spans s.ids ⟨attrs.meta.name, 1, attrs.meta⟩ }, s.ids) ∧
      Running.clone_span s id =
        .ok ({ s with spans := updateSpan s.spans id { sp with refs := sp.refs + 1 } }, id) ∧
      Running.drop_span s false id =
        .ok { s with spans := updateSpan s.spans id { sp with refs := sp.refs - 1 } }) ∧
    (∀ rest, s.expected = .nothing :: rest →
      Running.event s ev = .error (.bad s.name .nothing (.event ev.meta.name)) ∧
      Running.enter s id = .error (.bad s.name .nothing (.enteredSpan sp.name)) ∧
      Running.exit s false id = .error (.bad s.name .nothing (.exitedSpan sp.name)) ∧
      Running.record_follows_from s id kid =
        .error (.bad s.name .nothing (.followsFrom sp.name ksp.name)) ∧
      Running.record s id values = .ok s ∧
      Running.new_span s attrs =
        .ok ({ s with
               ids := s.ids + 1,
               spans := insertSpan s.spans s.ids ⟨attrs.meta.name, 1, attrs.meta⟩ }, s.ids) ∧
      Running.clone_span s id =
        .ok ({ s with spans := updateSpan s.spans id { sp with refs := sp.refs + 1 } }, id) ∧
      Running.drop_span s false id =
        .ok { s with spans := updateSpan s.spans id { sp with refs := sp.refs - 1 } }) := by
  constructor
  · intro hq
    refine ⟨?_, ?_, ?_, ?_, ?_, ?_, ?_, ?_⟩ <;>
      simp [Running.event, Running.record, Running.enter, Running.exit,
        Running.record_follows_from, Running.new_span, Running.clone_span,
        Running.drop_span, hid, hkid, hq]
  · intro rest hq
    refine ⟨?_, ?_, ?_, ?_, ?_, ?_, ?_, ?_⟩ <;>
      simp [Running.event, Running.record, Running.enter, Running.exit,
        Running.record_follows_from, Running.new_span, Running.clone_span,
        Running.drop_span, hid, hkid, hq]

/-- Witness for C5: with an empty queue an event is accepted unchanged; with
the `Nothing` sentinel at the head, entering a resolvable span fails with the
"expected nothing else to happen" diagnostic. -/
theorem C5_empty_queue_and_nothing_sentinel_witness :
    Running.event
      { spans := [(1, ⟨"foo", 1, ⟨"foo", "t", 3⟩⟩)], expected := [], current := [],
        ids := 2, name := "mock" } ⟨⟨"ev", "t", 3⟩, true, [], none⟩ =
      .ok { spans := [(1, ⟨"foo", 1, ⟨"foo", "t", 3⟩⟩)], expected := [], current := [],
            ids := 2, name := "mock" } ∧
    Running.enter
      { spans := [(1, ⟨"foo", 1, ⟨"foo", "t", 3⟩⟩)], expected := [.nothing], current := [],
        ids := 2, name := "mock" } 1 =
      .error (.bad "mock" .nothing (.enteredSpan "foo")) := by
  have h1 := (C5_empty_queue_and_nothing_sentinel
    { spans := [(1, ⟨"foo", 1, ⟨"foo", "t", 3⟩⟩)], expected := [], current := [],
      ids := 2, name := "mock" } 1 1 ⟨"foo", 1, ⟨"foo", "t", 3⟩⟩ ⟨"foo", 1, ⟨"foo", "t", 3⟩⟩
    [] ⟨⟨"foo", "t", 3⟩, none⟩ ⟨⟨"ev", "t", 3⟩, true, [], none⟩ rfl rfl).1 rfl
  have h2 := (C5_empty_queue_and_nothing_sentinel
    { spans := [(1, ⟨"foo", 1, ⟨"foo", "t", 3⟩⟩)], expected := [.nothing], current := [],
      ids := 2, name := "mock" } 1 1 ⟨"foo", 1, ⟨"foo", "t", 3⟩⟩ ⟨"foo", 1, ⟨"foo", "t", 3⟩⟩
    [] ⟨⟨"foo", "t", 3⟩, none⟩ ⟨⟨"ev", "t", 3⟩, true, [], none⟩ rfl rfl).2 [] rfl
  exact ⟨h1.1, h2.2.1⟩

/-- Claim C1, counterexample: `clone_span` on a resolvable id with a
non-`CloneSpan` queue head (here an `Enter` expectation) does not fail — the
engine returns successfully and leaves the head unconsumed, contradicting
"any other queue head causes an immediate failure" for `clone_span`. -/
theorem C1_counterexample :
    Running.clone_span
      { spans := [(1, ⟨"foo", 1, ⟨"foo", "t", 3⟩⟩)], expected := [.enter ⟨some "foo"⟩],
        current := [], ids := 2, name := "mock" } 1 =
      .ok ({ spans := [(1, ⟨"foo", 2, ⟨"foo", "t", 3⟩⟩)], expected := [.enter ⟨some "foo"⟩],
             current := [], ids := 2, name := "mock" }, 1) := rfl

/-- Claim C1, amended: on resolvable ids, `enter`, `exit` (outside a panic)
and `record_follows_from` fail immediately on any non-dedicated queue head
with the `Expect::bad` diagnostic rendering both the expected head and the
observed callback; `clone_span`, by contrast, ignores any head other than
`CloneSpan` (returning the id with the head unconsumed), and `drop_span`
ignores any head other than `DropSpan` or `Event`. -/
theorem C1_wrong_head_failures (s : MockState) (id kid : Nat) (sp ksp : SpanState)
    (ex : Expect) (rest : List Expect)
    (hid : lookupSpan s.spans id = some sp) (hkid : lookupSpan s.spans kid = some ksp)
    (hq : s.expected = ex :: rest) :
    (ex.isEnter = false →
      Running.enter s id = .error (.bad s.name ex (.enteredSpan sp.name))) ∧
    (ex.isExit = false →
      Running.exit s false id = .error (.bad s.name ex (.exitedSpan sp.name))) ∧
    (ex.isFollowsFrom = false →
      Running.record_follows_from s id kid =
        .error (.bad s.name ex (.followsFrom sp.name ksp.name))) ∧
    (ex.isCloneSpan = false →
      Running.clone_span s id =
        .ok ({ s with spans := updateSpan s.spans id { sp with refs := sp.refs + 1 } }, id)) ∧
    (ex.isDropSpan = false → ex.isEvent = false →
      Running.drop_span s false id =
        .ok { s with spans := updateSpan s.spans id { sp with refs := sp.refs - 1 } }) := by
  refine ⟨?_, ?_, ?_, ?_, ?_⟩
  · intro hne
    cases ex <;> simp [Expect.isEnter] at hne <;>
      simp [Running.enter, hid, hq]
  · intro hne
    cases ex <;> simp [Expect.isExit] at hne <;>
      simp [Running.exit, hid, hq]
  · intro hne
    cases ex <;> simp [Expect.isFollowsFrom] at hne <;>
      simp [Running.record_follows_from, hid, hkid, hq]
  · intro hne
    cases ex <;> simp [Expect.isCloneSpan] at hne <;>
      simp [Running.clone_span, hid, hq]
  · intro hne hne'
    cases ex <;> simp [Expect.isDropSpan] at hne <;>
      simp [Expect.isEvent] at hne' <;>
      simp [Running.drop_span, hid, hq]

/-- Witness for C1: with a `Nothing` head, `exit` on a resolvable id fails
rendering both items, while `clone_span` succeeds with the head unconsumed. -/
theorem C1_wrong_head_failures_witness :
    Running.exit
      { spans := [(1, ⟨"foo", 1, ⟨"foo", "t", 3⟩⟩)], expected := [.nothing], current := [1],
        ids := 2, name := "mock" } false 1 =
      .error (.bad "mock" .nothing (.exitedSpan "foo")) ∧
    Running.clone_span
      { spans := [(1, ⟨"foo", 1, ⟨"foo", "t", 3⟩⟩)], expected := [.nothing], current := [1],
        ids := 2, name := "mock" } 1 =
      .ok ({ spans := [(1, ⟨"foo", 2, ⟨"foo", "t", 3⟩⟩)], expected := [.nothing],
             current := [1], ids := 2, name := "mock" }, 1) := by
  have h := C1_wrong_head_failures
    { spans := [(1, ⟨"foo", 1, ⟨"foo", "t", 3⟩⟩)], expected := [.nothing], current := [1],
      ids := 2, name := "mock" } 1 1 ⟨"foo", 1, ⟨"foo", "t", 3⟩⟩ ⟨"foo", 1, ⟨"foo", "t", 3⟩⟩
    .nothing [] rfl rfl rfl
  exact ⟨h.2.1 rfl, h.2.2.2.1 rfl⟩

/-- Claim C2, counterexample: `enter` on an id absent from the span table is
not a fatal contract violation — the callback succeeds, skips the
expectation check, and still pushes the unknown id onto the current stack. -/
theorem C2_counterexample :
    Running.enter (run_with_handle [] "mock") 7 =
      .ok { spans := [], expected := [], current := [7], ids := 1, name := "mock" } := rfl

/-- Claim C2, amended: an id absent from the span table is fatal only for
`record` and (outside a panic) `exit`, which abort with the "no span for ID"
diagnostic naming the collector and the id; `enter` silently pushes the
unknown id, and `clone_span`/`drop_span` proceed — their only possible
failures are the name assertion against a `CloneSpan`/`DropSpan` head or the
is-event assertion against an `Event` head, never a missing-span abort. -/
theorem C2_unknown_id_behaviour (s : MockState) (id : Nat) (values : NamedValues)
    (hid : lookupSpan s.spans id = none) :
    Running.record s id values = .error (.noSpan s.name id) ∧
    Running.exit s false id = .error (.noSpan s.name id) ∧
    Running.enter s id = .ok { s with current := s.current ++ [id] } ∧
    ((∃ t, Running.clone_span s id = .ok (t, id)) ∨
      (∃ a b, Running.clone_span s id = .error (.optNameMismatch a b))) ∧
    ((∃ t, Running.drop_span s false id = .ok t) ∨
      (∃ a b, Running.drop_span s false id = .error (.optNameMismatch a b)) ∨
      Running.drop_span s false id = .error (.expectedEvent s.name)) := by
  refine ⟨?_, ?_, ?_, ?_, ?_⟩
  · simp [Running.record, hid]
  · simp [Running.exit, hid]
  · simp [Running.enter, hid]
  · rcases hexp : s.expected with _ | ⟨ex, rest⟩
    · exact Or.inl ⟨s, by simp [Running.clone_span, hid, hexp]; rw [← hexp]⟩
    · cases ex
      case cloneSpan e =>
        rcases hn : e.name? with _ | n
        · exact Or.inl ⟨{ s with expected := rest },
            by simp [Running.clone_span, hid, hexp, hn]⟩
        · exact Or.inr ⟨none, some n, by simp [Running.clone_span, hid, hexp, hn]⟩
      all_goals
        exact Or.inl ⟨s, by simp [Running.clone_span, hid, hexp]; rw [← hexp]⟩
  · rcases hexp : s.expected with _ | ⟨ex, rest⟩
    · exact Or.inl ⟨s, by simp [Running.drop_span, hid, hexp]; rw [← hexp]⟩
    · cases ex
      case dropSpan e =>
        rcases hn : e.name? with _ | n
        · exact Or.inl ⟨{ s with expected := rest },
            by simp [Running.drop_span, hid, hexp, hn]⟩
        · exact Or.inr (Or.inl ⟨none, some n, by simp [Running.drop_span, hid, hexp, hn]⟩)
      case event e =>
        exact Or.inr (Or.inr (by simp [Running.drop_span, hid, hexp]))
      all_goals
        exact Or.inl ⟨s, by simp [Running.drop_span, hid, hexp]; rw [← hexp]⟩

/-- Witness for C2: on the empty table, `record` and `exit` abort with the
missing-span diagnostic naming the collector and id 7. -/
theorem C2_unknown_id_behaviour_witness :
    Running.record (run_with_handle [] "mock") 7 [] = .error (.noSpan "mock" 7) ∧
    Running.exit (run_with_handle [] "mock") false 7 = .error (.noSpan "mock" 7) := by
  have h := C2_unknown_id_behaviour (run_with_handle [] "mock") 7 [] rfl
  exact ⟨h.1, h.2.1⟩

/-- Claim C3, counterexample: with an empty expectation queue, exiting span 1
while span 2 is the top of the current stack raises no violation and does
not pop the stack — the exit is silently accepted with the state unchanged,
contradicting "every exit(id) pops the stack" and "exiting a span that is
not the current top raises a violation". -/
theorem C3_counterexample :
    Running.exit
      { spans := [(1, ⟨"a", 1, ⟨"a", "t", 3⟩⟩), (2, ⟨"b", 1, ⟨"b", "t", 3⟩⟩)],
        expected := [], current := [1, 2], ids := 3, name := "mock" } false 1 =
      .ok { spans := [(1, ⟨"a", 1, ⟨"a", "t", 3⟩⟩), (2, ⟨"b", 1, ⟨"b", "t", 3⟩⟩)],
            expected := [], current := [1, 2], ids := 3, name := "mock" } := rfl

/-- Every successful `enter` pushes the entered id onto the current stack
and leaves the span table unchanged. -/
theorem enter_ok_shape (s t : MockState) (id : Nat) (h : Running.enter s id = .ok t) :
    t.current = s.current ++ [id] ∧ t.spans = s.spans := by
  rcases hl : lookupSpan s.spans id with _ | sp
  · simp only [Running.enter, hl] at h
    rw [Except.ok.injEq] at h
    subst h
    exact ⟨rfl, rfl⟩
  · rcases hexp : s.expected with _ | ⟨ex, rest⟩
    · simp only [Running.enter, hl, hexp] at h
      rw [Except.ok.injEq] at h
      subst h
      exact ⟨rfl, rfl⟩
    · cases ex <;> simp only [Running.enter, hl, hexp] at h
      case enter e =>
        rcases hn : e.name? with _ | n
        · simp only [hn] at h
          rw [Except.ok.injEq] at h
          subst h
          exact ⟨rfl, rfl⟩
        · simp only [hn] at h
          split at h
          · exact Except.noConfusion h
          · rename_i s2 heq
            split at heq
            · rw [Except.ok.injEq] at heq
              subst heq
              rw [Except.ok.injEq] at h
              subst h
              exact ⟨rfl, rfl⟩
            · exact Except.noConfusion heq
      all_goals exact Except.noConfusion h

/-- Claim C3, amended: `enter` always pushes the entered id; `exit` pops the
stack and enforces the LIFO discipline only when the queue head is an `Exit`
expectation — the popped id must equal the exited id, and a mismatch raises
a violation naming the expected-to-exit id and the actual current top; with
an empty expectation queue (or during a panic) the stack is left unchanged
and no violation is raised. -/
theorem C3_lifo_only_under_exit_expectation (s : MockState) (id : Nat) (sp : SpanState)
    (e : MockSpan) (rest : List Expect) (hid : lookupSpan s.spans id = some sp) :
    (∀ t, Running.enter s id = .ok t → t.current = s.current ++ [id]) ∧
    (s.expected = [] → Running.exit s false id = .ok s) ∧
    (Running.exit s true id = .ok s) ∧
    (s.expected = .exit e :: rest → (e.name? = none ∨ e.name? = some sp.name) →
      (s.current.getLast? = some id →
        Running.exit s false id =
          .ok { s with expected := rest, current := s.current.dropLast }) ∧
      (s.current.getLast? ≠ some id →
        Running.exit s false id =
          .error (.exitNotCurrent s.name id sp.name s.current.getLast?
            ((s.current.getLast?.bind (lookupSpan s.spans)).map (fun u => u.name))))) := by
  refine ⟨?_, ?_, ?_, ?_⟩
  · intro t h
    exact (enter_ok_shape s t id h).1
  · intro hq
    simp [Running.exit, hid, hq]
  · simp [Running.exit]
  · intro hq hname
    constructor
    · intro hcur
      rcases hname with hn | hn <;> simp [Running.exit, hid, hq, hn, hcur]
    · intro hcur
      rcases hname with hn | hn <;> simp [Running.exit, hid, hq, hn, hcur]

/-- Witness for C3: entering spans 1 then 2 and exiting 2 then 1 under
matching `Exit` expectations pops in LIFO order; exiting 1 first, while 2 is
the top, fails naming the expected-to-exit id and the actual top. -/
theorem C3_lifo_only_under_exit_expectation_witness :
    Running.exit
      { spans := [(1, ⟨"a", 1, ⟨"a", "t", 3⟩⟩), (2, ⟨"b", 1, ⟨"b", "t", 3⟩⟩)],
        expected := [.exit ⟨some "b"⟩], current := [1, 2], ids := 3, name := "mock" } false 2 =
      .ok { spans := [(1, ⟨"a", 1, ⟨"a", "t", 3⟩⟩), (2, ⟨"b", 1, ⟨"b", "t", 3⟩⟩)],
            expected := [], current := [1], ids := 3, name := "mock" } ∧
    Running.exit
      { spans := [(1, ⟨"a", 1, ⟨"a", "t", 3⟩⟩), (2, ⟨"b", 1, ⟨"b", "t", 3⟩⟩)],
        expected := [.exit ⟨some "a"⟩], current := [1, 2], ids := 3, name := "mock" } false 1 =
      .error (.exitNotCurrent "mock" 1 "a" (some 2) (some "b")) := by
  have h1 := ((C3_lifo_only_under_exit_expectation
    { spans := [(1, ⟨"a", 1, ⟨"a", "t", 3⟩⟩), (2, ⟨"b", 1, ⟨"b", "t", 3⟩⟩)],
      expected := [.exit ⟨some "b"⟩], current := [1, 2], ids := 3, name := "mock" } 2
    ⟨"b", 1, ⟨"b", "t", 3⟩⟩ ⟨some "b"⟩ [] rfl).2.2.2 rfl (Or.inr rfl)).1 rfl
  have h2 := ((C3_lifo_only_under_exit_expectation
    { spans := [(1, ⟨"a", 1, ⟨"a", "t", 3⟩⟩), (2, ⟨"b", 1, ⟨"b", "t", 3⟩⟩)],
      expected := [.exit ⟨some "a"⟩], current := [1, 2], ids := 3, name := "mock" } 1
    ⟨"a", 1, ⟨"a", "t", 3⟩⟩ ⟨some "a"⟩ [] rfl).2.2.2 rfl (Or.inr rfl)).2 (by decide)
  exact ⟨h1, h2⟩

/-- Claim C10: `drop_span` with an `Event` expectation at the queue head
consumes the expectation deciding the match solely by whether the dropped
span's recorded name contains the substring `"event"` — the expectation's
metadata/field/parent payload `e` never appears on the right-hand side —
asserting the containment unless the thread is already panicking; with a
`DropSpan` head, only the span's optional name is compared before popping. -/
theorem C10_drop_span_event_and_name_only (s : MockState) (id : Nat) (sp : SpanState)
    (rest : List Expect) (hid : lookupSpan s.spans id = some sp) :
    (∀ e : MockEvent, s.expected = .event e :: rest →
      Running.drop_span s false id =
        (if strContains sp.name "event" then
          .ok { s with
                spans := updateSpan s.spans id { sp with refs := sp.refs - 1 },
                expected := rest }
        else .error (.expectedEvent s.name)) ∧
      Running.drop_span s true id =
        .ok { s with
              spans := updateSpan s.spans id { sp with refs := sp.refs - 1 },
              expected := rest }) ∧
    (∀ ms : MockSpan, s.expected = .dropSpan ms :: rest →
      Running.drop_span s false id =
        (if some sp.name = ms.name? then
          .ok { s with
                spans := updateSpan s.spans id { sp with refs := sp.refs - 1 },
                expected := rest }
        else .error (.optNameMismatch (some sp.name) ms.name?))) := by
  constructor
  · intro e hq
    constructor
    · by_cases hev : strContains sp.name "event" = true <;>
        simp [Running.drop_span, hid, hq, hev]
    · simp [Running.drop_span, hid, hq]
  · intro ms hq
    by_cases hn : some sp.name = ms.name? <;>
      simp [Running.drop_span, hid, hq, hn]

/-- Witness for C10: dropping a span named "my_event" consumes an `Event`
expectation (whatever its payload), and a `DropSpan` head matching the name
is popped. -/
theorem C10_drop_span_event_and_name_only_witness :
    Running.drop_span
      { spans := [(1, ⟨"my_event", 1, ⟨"my_event", "t", 3⟩⟩)],
        expected := [.event ⟨none, none, [], ⟨none, none, none⟩⟩], current := [],
        ids := 2, name := "mock" } false 1 =
      .ok { spans := [(1, ⟨"my_event", 0, ⟨"my_event", "t", 3⟩⟩)], expected := [],
            current := [], ids := 2, name := "mock" } ∧
    Running.drop_span
      { spans := [(1, ⟨"a", 1, ⟨"a", "t", 3⟩⟩)], expected := [.dropSpan ⟨some "a"⟩],
        current := [], ids := 2, name := "mock" } false 1 =
      .ok { spans := [(1, ⟨"a", 0, ⟨"a", "t", 3⟩⟩)], expected := [], current := [],
            ids := 2, name := "mock" } := by
  have h1 := ((C10_drop_span_event_and_name_only
    { spans := [(1, ⟨"my_event", 1, ⟨"my_event", "t", 3⟩⟩)],
      expected := [.event ⟨none, none, [], ⟨none, none, none⟩⟩], current := [],
      ids := 2, name := "mock" } 1 ⟨"my_event", 1, ⟨"my_event", "t", 3⟩⟩ [] rfl).1
    ⟨none, none, [], ⟨none, none, none⟩⟩ rfl).1
  have h2 := (C10_drop_span_event_and_name_only
    { spans := [(1, ⟨"a", 1, ⟨"a", "t", 3⟩⟩)], expected := [.dropSpan ⟨some "a"⟩],
      current := [], ids := 2, name := "mock" } 1 ⟨"a", 1, ⟨"a", "t", 3⟩⟩ [] rfl).2
    ⟨some "a"⟩ rfl
  rw [show strContains "my_event" "event" = true from by decide] at h1
  rw [if_pos rfl] at h2
  simp only [if_true] at h1
  exact ⟨h1, h2⟩

set_option maxHeartbeats 2000000 in
/-- `compareValues` succeeds exactly on values of a supported kind that the
per-kind `assert_eq!` deems equal — payload equality for the non-float
kinds, IEEE-754 `==` for `f32`/`f64`. -/
theorem compareValues_ok_iff (v e : MValue) :
    Running.compareValues v e = .ok () ↔ MValue.eqv v e = true ∧ supportedPrim v = true := by
  cases v <;> cases e <;>
    simp [Running.compareValues, MValue.eqv, supportedPrim]

set_option maxHeartbeats 2000000 in
/-- Values of different kinds never compare successfully. -/
theorem compareValues_ne_ok_of_kind_ne (v e : MValue) (h : v.kind ≠ e.kind) :
    Running.compareValues v e ≠ .ok () := by
  cases v <;> cases e <;> simp [MValue.kind] at h <;>
    simp [Running.compareValues]

/-- Comparing against an expectation of an unsupported kind always raises
the not-implemented failure, whatever was observed. -/
theorem compareValues_unsupported (v e : MValue) (h : supportedPrim e = false) :
    Running.compareValues v e = .error .notImplemented := by
  cases e <;> (try (cases v <;> rfl)) <;> simp [supportedPrim] at h

theorem checkFields_ok_iff (exp : List (String × MValue)) (obs : NamedValues) :
    Running.checkFields exp obs = .ok () ↔
      ∀ p ∈ exp, ∃ v, getByName obs p.1 = some v ∧
        Running.compareValues v p.2 = .ok () := by
  induction exp with
  | nil => simp [Running.checkFields]
  | cons q rest ih =>
    rcases q with ⟨n, e⟩
    rcases hg : getByName obs n with _ | v
    · simp only [Running.checkFields, hg]
      constructor
      · intro h
        exact Except.noConfusion h
      · intro hall
        obtain ⟨v, hv, -⟩ := hall (n, e) (List.mem_cons_self _ _)
        rw [hg] at hv
        exact Option.noConfusion hv
    · rcases hc : Running.compareValues v e with f | u
      · simp only [Running.checkFields, hg, hc]
        constructor
        · intro h
          exact Except.noConfusion h
        · intro hall
          obtain ⟨w, hw, hcw⟩ := hall (n, e) (List.mem_cons_self _ _)
          rw [hg] at hw
          injection hw with hw
          subst hw
          rw [hc] at hcw
          exact Except.noConfusion hcw
      · cases u
        simp only [Running.checkFields, hg, hc]
        rw [ih]
        constructor
        · intro hrest p hp
          rcases List.mem_cons.mp hp with rfl | hp'
          · exact ⟨v, hg, hc⟩
          · exact hrest p hp'
        · intro hall p hp
          exact hall p (List.mem_cons_of_mem _ hp)

/-- `checkFields` succeeds exactly when every expected field name resolves
in the observed values to a value of a supported kind that the per-kind
`assert_eq!` deems equal to the expected one. -/
theorem checkFields_ok_iff_values (exp : List (String × MValue)) (obs : NamedValues) :
    Running.checkFields exp obs = .ok () ↔
      ∀ p ∈ exp,
        ((getByName obs p.1).any fun v => MValue.eqv v p.2 && supportedPrim v) = true := by
  rw [checkFields_ok_iff]
  constructor
  · intro h p hp
    obtain ⟨v, hv, hc⟩ := h p hp
    obtain ⟨he, hs⟩ := (compareValues_ok_iff v p.2).1 hc
    rw [hv]
    simp [Option.any, he, hs]
  · intro h p hp
    have hv := h p hp
    rcases hg : getByName obs p.1 with _ | v
    · rw [hg] at hv
      simp [Option.any] at hv
    · rw [hg] at hv
      simp only [Option.any, Bool.and_eq_true] at hv
      exact ⟨v, rfl, (compareValues_ok_iff v p.2).2 ⟨hv.1, hv.2⟩⟩

theorem checkFields_congr (exp : List (String × MValue)) (obs obs' : NamedValues)
    (h : ∀ p ∈ exp, getByName obs' p.1 = getByName obs p.1) :
    Running.checkFields exp obs' = Running.checkFields exp obs := by
  induction exp with
  | nil => rfl
  | cons q rest ih =>
    rcases q with ⟨n, e⟩
    have hn := h (n, e) (List.mem_cons_self _ _)
    simp only [Running.checkFields, hn]
    rcases hg : getByName obs n with _ | v
    · rfl
    · rcases hc : Running.compareValues v e with f | u
      · simp only [hc]
      · cases u
        simp only [hc]
        exact ih (fun p hp => h p (List.mem_cons_of_mem _ hp))

/-- Claim C9: under a `Visit` expectation whose span name matches, the
`record` callback succeeds exactly when every expected field exists in the
observed value set with a value of a supported kind that the per-kind
`assert_eq!` deems equal (payload equality for the non-float kinds, IEEE-754
`==` for `f32`/`f64`); an expectation of one kind never matches an
observation of a different kind; comparing against an unsupported expected
kind (errors, lists, maps, structs, tuples, enums) raises the
not-implemented failure rather than passing; and observed fields not named
in the expectation are ignored — the outcome depends only on the lookups of
the expected field names. -/
theorem C9_visit_field_comparison (s : MockState) (id : Nat) (sp : SpanState)
    (mspan : MockSpan) (expVals : NamedValues) (rest : List Expect) (obs : NamedValues)
    (hid : lookupSpan s.spans id = some sp)
    (hq : s.expected = .visit mspan expVals :: rest)
    (hname : mspan.name? = none ∨ mspan.name? = some sp.name) :
    (Running.record s id obs = .ok { s with expected := rest } ↔
      ∀ p ∈ expVals,
        ((getByName obs p.1).any fun v => MValue.eqv v p.2 && supportedPrim v) = true) ∧
    (∀ v e : MValue, v.kind ≠ e.kind → Running.compareValues v e ≠ .ok ()) ∧
    (∀ v e : MValue, supportedPrim e = false →
      Running.compareValues v e = .error .notImplemented) ∧
    (∀ obs' : NamedValues, (∀ p ∈ expVals, getByName obs' p.1 = getByName obs p.1) →
      Running.record s id obs' = Running.record s id obs) := by
  have hred : ∀ ovs : NamedValues, Running.record s id ovs =
      (match Running.checkFields expVals ovs with
        | .ok _ => .ok { s with expected := rest }
        | .error f => .error f) := by
    intro ovs
    rcases hname with hn | hn <;> simp [Running.record, hid, hq, hn]
  refine ⟨?_, ?_, ?_, ?_⟩
  · rw [hred obs, ← checkFields_ok_iff_values]
    rcases hcf : Running.checkFields expVals obs with f | u
    · constructor
      · intro h
        exact Except.noConfusion h
      · intro h
        exact Except.noConfusion h
    · cases u
      exact ⟨fun _ => rfl, fun _ => rfl⟩
  · intro v e hlk
    exact compareValues_ne_ok_of_kind_ne v e hlk
  · intro v e hsup
    exact compareValues_unsupported v e hsup
  · intro obs' hagree
    rw [hred obs, hred obs', checkFields_congr expVals obs obs' hagree]

/-- Witness for C9: the `Visit` expectation `{foo: U64 1, bar: U64 2}`
against observed `{foo: U64 1, bar: U64 2, baz: U64 3}` succeeds — the
extra observed field `baz` is ignored. -/
theorem C9_visit_field_comparison_witness :
    Running.record
      { spans := [(1, ⟨"foo", 1, ⟨"foo", "t", 3⟩⟩)],
        expected := [.visit ⟨some "foo"⟩ [("foo", .u64 1), ("bar", .u64 2)]],
        current := [], ids := 2, name := "mock" } 1
      [("foo", .u64 1), ("bar", .u64 2), ("baz", .u64 3)] =
      .ok { spans := [(1, ⟨"foo", 1, ⟨"foo", "t", 3⟩⟩)], expected := [],
            current := [], ids := 2, name := "mock" } := by
  exact (C9_visit_field_comparison
    { spans := [(1, ⟨"foo", 1, ⟨"foo", "t", 3⟩⟩)],
      expected := [.visit ⟨some "foo"⟩ [("foo", .u64 1), ("bar", .u64 2)]],
      current := [], ids := 2, name := "mock" } 1 ⟨"foo", 1, ⟨"foo", "t", 3⟩⟩
    ⟨some "foo"⟩ [("foo", .u64 1), ("bar", .u64 2)] []
    [("foo", .u64 1), ("bar", .u64 2), ("baz", .u64 3)]
    rfl rfl (Or.inr rfl)).1.mpr (by decide)

end TracingMock
